import Mathlib

/-!
Shallow embedding of the MuseQuill newsletter service core
(`newsletter_service.py`): the subscriber store, `add_subscriber`,
`export_subscribers`, `get_analytics` (aggregates and launch countdown),
and the shared `process_signup` handler.

Modelling conventions:
* Timestamps are UTC Unix seconds (`Int`).  The source stores ISO-8601
  UTC strings and compares them as text; for fixed-format UTC strings the
  lexicographic order coincides with chronological order, so `Int` with
  the usual order is a faithful abstraction.
* SQLite `INTEGER` flag columns (`is_active`, `is_confirmed`) are `Int`
  (the code writes literal 1/0 and filters with `= 1`).
* JSON event payloads are association lists `List (String × Option String)`
  in insertion order, matching `json.dumps` of the dict literals.
* Generated values (UUID row id, confirmation token, event id) and the
  current time are passed as explicit parameters.
* Python `timedelta` normalisation is modelled exactly: for a difference
  of `t` seconds, `.days = t.fdiv 86400` and `.seconds = t.fmod 86400`
  (floor division / floor modulus, `0 ≤ .seconds < 86400` always).
* A raised `ValueError(msg)` is `Except.error msg`; the store state is
  returned alongside so that rollback (state unchanged on error) is
  explicit.
-/

/-- Subscriber row of the `subscribers` table, columns in schema order. -/
structure Subscriber where
  id : String
  email : String
  name : Option String
  source : String
  campaign : String
  interests : List String
  referrer : Option String
  user_agent : Option String
  ip_address : Option String
  utm_source : Option String
  utm_medium : Option String
  utm_campaign : Option String
  utm_content : Option String
  is_active : Int
  is_confirmed : Int
  confirmation_token : String
  created_at : Int
  updated_at : Int
  last_email_sent : Option Int
  unsubscribed_at : Option Int
  metadata : String
deriving Repr, DecidableEq

/-- Row of the append-only `events` table. -/
structure Event where
  id : String
  subscriber_id : String
  event_type : String
  event_data : List (String × Option String)
  created_at : Int
deriving Repr, DecidableEq

/-- Persistent state owned by `NewsletterDatabase`: the `subscribers`
table and the `events` log (the `campaigns` table is reference data
untouched by the operations modelled here). -/
structure Store where
  subscribers : List Subscriber
  events : List Event
deriving Repr, DecidableEq

/-- Schema invariant from `email TEXT UNIQUE NOT NULL`: no two subscriber
rows share an email. -/
def Store.emailsNodup (s : Store) : Prop :=
  (s.subscribers.map (fun r => r.email)).Nodup

instance (s : Store) : Decidable s.emailsNodup := by
  unfold Store.emailsNodup; infer_instance

/-- Validated signup payload (`NewsletterSignup` pydantic model). -/
structure NewsletterSignup where
  email : String
  name : Option String
  source : String
  campaign : String
  interests : Option (List String)
  referrer : Option String
  user_agent : Option String
  ip_address : Option String
  utm_source : Option String
  utm_medium : Option String
  utm_campaign : Option String
  utm_content : Option String
deriving Repr, DecidableEq

/-- Response model returned by the signup endpoints. -/
structure NewsletterResponse where
  success : Bool
  message : String
  subscriber_id : Option String
deriving Repr, DecidableEq

/-- Whether the character list `pat` is a prefix of `cs`. -/
def leadMatch : List Char → List Char → Bool
  | [], _ => true
  | _ :: _, [] => false
  | p :: ps, c :: cs => p == c && leadMatch ps cs

/-- Whether the character list `pat` occurs contiguously inside `cs`. -/
def subMatch (pat : List Char) : List Char → Bool
  | [] => leadMatch pat []
  | c :: cs => leadMatch pat (c :: cs) || subMatch pat cs

/-- Python `pat in s` on strings: substring containment. -/
def strContains (s pat : String) : Bool :=
  subMatch pat.data s.data

/-- Launch instant `2025-09-01T00:00:00Z` (the string parsed at line 334
of the source), as UTC Unix seconds. -/
def launchDate : Int := 1756684800

/-- Launch-countdown dictionary produced by `get_analytics`. -/
structure Countdown where
  days : Int
  hours : Int
  minutes : Int
  seconds : Int
  total_seconds : Int
deriving Repr, DecidableEq

/-- Countdown computation of `get_analytics` (source lines 333-351):
`time_diff = launch_date - now` is a Python `timedelta`, whose
normalised components are `days = t.fdiv 86400` (possibly negative) and
`seconds = t.fmod 86400` (always in `[0, 86400)`); each published field
wraps its expression in `max 0`. -/
def launch_countdown (t : Int) : Countdown :=
  { days := max 0 (t.fdiv 86400)
    hours := max 0 ((t.fmod 86400).fdiv 3600)
    minutes := max 0 (((t.fmod 86400).fmod 3600).fdiv 60)
    seconds := max 0 ((t.fmod 86400).fmod 60)
    total_seconds := max 0 t }

/-- Subscriber row built by the `INSERT INTO subscribers` at source lines
217-240: generated id and confirmation token, `ip_address` from the
function argument (not the payload field), defaults `is_active = 1`,
`is_confirmed = 0`, both timestamps `now`, `metadata` its column default. -/
def newRow (signup : NewsletterSignup) (ip : Option String)
    (newId tok : String) (now : Int) : Subscriber :=
  { id := newId
    email := signup.email
    name := signup.name
    source := signup.source
    campaign := signup.campaign
    interests := signup.interests.getD []
    referrer := signup.referrer
    user_agent := signup.user_agent
    ip_address := ip
    utm_source := signup.utm_source
    utm_medium := signup.utm_medium
    utm_campaign := signup.utm_campaign
    utm_content := signup.utm_content
    is_active := 1
    is_confirmed := 0
    confirmation_token := tok
    created_at := now
    updated_at := now
    last_email_sent := none
    unsubscribed_at := none
    metadata := "\x7b\x7d" }

/-- Row update performed by the reactivation `UPDATE` at source lines
261-269: only the five listed columns change. -/
def reactivate (signup : NewsletterSignup) (now : Int) (r : Subscriber) :
    Subscriber :=
  { r with
    is_active := 1
    unsubscribed_at := none
    updated_at := now
    source := signup.source
    campaign := signup.campaign }

/-- `NewsletterDatabase.add_subscriber` (source lines 210-279).
The initial `INSERT` raises `sqlite3.IntegrityError` exactly when a row
already uses the email (UNIQUE) or the generated id (PRIMARY KEY); on
success it also appends the `signup` event and commits.  The handler
re-reads the row by email: if one exists and its `unsubscribed_at` is
set, it reactivates every row with that email, appends a `resubscribe`
event for the fetched row id and returns that id; otherwise it raises
`ValueError("Email already subscribed")`, leaving the store unchanged
(nothing was committed). -/
def add_subscriber (s : Store) (signup : NewsletterSignup)
    (ip : Option String) (newId tok evId : String) (now : Int) :
    Except String String × Store :=
  if s.subscribers.any (fun r => r.email == signup.email || r.id == newId) then
    match s.subscribers.find? (fun r => r.email == signup.email) with
    | some r =>
      if r.unsubscribed_at.isSome then
        (Except.ok r.id,
          { subscribers := s.subscribers.map (fun q =>
              if q.email == signup.email then reactivate signup now q else q)
            events := s.events ++
              [{ id := evId
                 subscriber_id := r.id
                 event_type := "resubscribe"
                 event_data :=
                   [("source", some signup.source),
                    ("campaign", some signup.campaign)]
                 created_at := now }] })
      else (Except.error "Email already subscribed", s)
    | none => (Except.error "Email already subscribed", s)
  else
    (Except.ok newId,
      { subscribers := s.subscribers ++ [newRow signup ip newId tok now]
        events := s.events ++
          [{ id := evId
             subscriber_id := newId
             event_type := "signup"
             event_data :=
               [("source", some signup.source),
                ("campaign", some signup.campaign),
                ("ip", ip)]
             created_at := now }] })

/-- Shared `process_signup` handler (source lines 510-541): on a stored
id it answers success with that id; on a `ValueError` whose message
contains `"already subscribed"` it answers the success-shaped
already-on-the-list response without an id; any other `ValueError`
becomes an HTTP 400. -/
def process_signup (s : Store) (signup : NewsletterSignup)
    (ip : Option String) (newId tok evId : String) (now : Int) :
    Except Nat (NewsletterResponse × Store) :=
  match add_subscriber s signup ip newId tok evId now with
  | (Except.ok sid, s1) =>
    Except.ok
      ({ success := true
         message := "🎉 You\x27re on the list! Check your email for exclusive updates."
         subscriber_id := some sid }, s1)
  | (Except.error e, s1) =>
    if strContains e "already subscribed" then
      Except.ok
        ({ success := true
           message := "You\x27re already on our list! Thanks for your continued interest."
           subscriber_id := none }, s1)
    else Except.error 400

/-- Python truthiness of the optional `campaign` argument: the filter
clause is appended only under `if campaign:`, so `None` and the empty
string both leave the filter off. -/
def campaignTruthy : Option String → Bool
  | none => false
  | some c => !(c == "")

/-- `NewsletterDatabase.export_subscribers` (source lines 354-368):
`SELECT * FROM subscribers WHERE is_active = 1 [AND campaign = ?] ORDER
BY created_at DESC`. -/
def export_subscribers (s : Store) (campaign : Option String) :
    List Subscriber :=
  (s.subscribers.filter (fun r =>
      r.is_active == 1 &&
        (if campaignTruthy campaign then r.campaign == campaign.getD ""
         else true))).mergeSort
    (fun a b => decide (b.created_at ≤ a.created_at))

/-- Cutoff timestamp of `get_analytics`: `now - timedelta(days=days)`. -/
def cutoff (now : Int) (days : Nat) : Int := now - (days : Int) * 86400

/-- SQLite `DATE(created_at)`: the UTC calendar day of a timestamp,
as a day number. -/
def dateOf (t : Int) : Int := t.fdiv 86400

/-- Rows satisfying the `WHERE created_at >= ?` window clause shared by
the three aggregation queries of `get_analytics`. -/
def windowRows (s : Store) (days : Nat) (now : Int) : List Subscriber :=
  s.subscribers.filter (fun r => decide (cutoff now days ≤ r.created_at))

/-- SQL `GROUP BY f(row)` with `COUNT(*)`: one pair per distinct key
among `rows`, carrying the number of rows with that key. -/
def groupCounts {α : Type} [DecidableEq α] (f : Subscriber → α)
    (rows : List Subscriber) : List (α × Nat) :=
  ((rows.map f).dedup).map (fun k => (k, (rows.map f).count k))

/-- Analytics dictionary returned by `get_analytics`. -/
structure AnalyticsSnapshot where
  total_subscribers : Nat
  active_subscribers : Nat
  confirmed_subscribers : Nat
  daily_signups : List (Int × Nat)
  sources : List (String × Nat)
  campaigns : List (String × Nat)
  launch_countdown : Countdown
deriving Repr, DecidableEq

/-- `NewsletterDatabase.get_analytics` (source lines 294-352): total /
active / confirmed counts over the whole table, the three windowed
aggregates (daily signups by calendar date ordered date-descending,
sources and campaigns ordered count-descending), and the launch
countdown computed from `launch_date - now`. -/
def get_analytics (s : Store) (days : Nat) (now : Int) :
    AnalyticsSnapshot :=
  let rows := windowRows s days now
  { total_subscribers := s.subscribers.length
    active_subscribers :=
      (s.subscribers.filter (fun r => r.is_active == 1)).length
    confirmed_subscribers :=
      (s.subscribers.filter (fun r => r.is_confirmed == 1)).length
    daily_signups :=
      (groupCounts (fun r => dateOf r.created_at) rows).mergeSort
        (fun a b => decide (b.fst ≤ a.fst))
    sources :=
      (groupCounts (fun r => r.source) rows).mergeSort
        (fun a b => decide (b.snd ≤ a.snd))
    campaigns :=
      (groupCounts (fun r => r.campaign) rows).mergeSort
        (fun a b => decide (b.snd ≤ a.snd))
    launch_countdown := launch_countdown (launchDate - now) }

/-- Demo subscriber row that has unsubscribed (`unsubscribed_at` set). -/
def demoUnsubRow : Subscriber :=
  { id := "id-1"
    email := "a@example.com"
    name := none
    source := "old_source"
    campaign := "old_campaign"
    interests := []
    referrer := none
    user_agent := none
    ip_address := some "1.2.3.4"
    utm_source := none
    utm_medium := none
    utm_campaign := none
    utm_content := none
    is_active := 0
    is_confirmed := 0
    confirmation_token := "tok-1"
    created_at := 10
    updated_at := 20
    last_email_sent := none
    unsubscribed_at := some 30
    metadata := "\x7b\x7d" }

/-- Demo subscriber row that is active and was never unsubscribed. -/
def demoActiveRow : Subscriber :=
  { demoUnsubRow with
    id := "id-0"
    is_active := 1
    unsubscribed_at := none
    campaign := "early_access_2025" }

/-- Demo signup payload for `a@example.com`. -/
def demoSignup : NewsletterSignup :=
  { email := "a@example.com"
    name := none
    source := "landing_page"
    campaign := "early_access_2025"
    interests := none
    referrer := none
    user_agent := none
    ip_address := none
    utm_source := none
    utm_medium := none
    utm_campaign := none
    utm_content := none }

/-- C6: for `now` equal to the launch instant minus 90,061 seconds the
countdown published by `get_analytics` reads 1 day, 1 hour, 1 minute,
1 second, and 90,061 total seconds. -/
theorem countdown_minus_90061 (s : Store) (days : Nat) :
    (get_analytics s days (launchDate - 90061)).launch_countdown =
      { days := 1, hours := 1, minutes := 1, seconds := 1,
        total_seconds := 90061 } := by
  show launch_countdown (launchDate - (launchDate - 90061)) = _
  have h : launchDate - (launchDate - 90061) = 90061 := by ring
  rw [h]; decide

/-- C1 as written fails on the code: five seconds after the launch
instant, the Python `timedelta` for `launch_date - now` normalises to
`days = -1`, `seconds = 86395`, so `get_analytics` publishes 23 hours,
59 minutes and 55 seconds remaining — only `days` and `total_seconds`
are actually floored to zero. -/
theorem countdown_after_launch_not_zero (s : Store) (days : Nat) :
    (get_analytics s days (launchDate + 5)).launch_countdown =
      { days := 0, hours := 23, minutes := 59, seconds := 55,
        total_seconds := 0 } := by
  show launch_countdown (launchDate - (launchDate + 5)) = _
  have h : launchDate - (launchDate + 5) = -5 := by ring
  rw [h]; decide

/-- Helper: with a unique-email store and a matching row `r` whose
`unsubscribed_at` is set, `add_subscriber` takes the reactivation branch
and its exact result is the updated store plus one `resubscribe` event. -/
theorem add_subscriber_resub_eq (s : Store) (signup : NewsletterSignup)
    (ip : Option String) (newId tok evId : String) (now : Int)
    (r : Subscriber) (hnd : s.emailsNodup) (hr : r ∈ s.subscribers)
    (he : r.email = signup.email) (hu : r.unsubscribed_at.isSome) :
    add_subscriber s signup ip newId tok evId now =
      (Except.ok r.id,
        { subscribers := s.subscribers.map (fun q =>
            if q.email == signup.email then reactivate signup now q else q)
          events := s.events ++
            [{ id := evId
               subscriber_id := r.id
               event_type := "resubscribe"
               event_data :=
                 [("source", some signup.source),
                  ("campaign", some signup.campaign)]
               created_at := now }] }) := by
  have hany : s.subscribers.any
      (fun q => q.email == signup.email || q.id == newId) = true :=
    List.any_eq_true.mpr ⟨r, hr, by simp [he]⟩
  have hre : (r.email == signup.email) = true := by simp [he]
  have hfind : s.subscribers.find? (fun q => q.email == signup.email)
      = some r := by
    have hsome : (s.subscribers.find?
        (fun q => q.email == signup.email)).isSome = true :=
      List.find?_isSome.mpr ⟨r, hr, hre⟩
    obtain ⟨q, hq⟩ := Option.isSome_iff_exists.mp hsome
    have hq2 := List.find?_some hq
    have hq3 : (q.email == signup.email) = true := hq2
    have hqe : q.email = r.email := (eq_of_beq hq3).trans he.symm
    have hqr : q = r :=
      List.inj_on_of_nodup_map hnd (List.mem_of_find?_eq_some hq) hr hqe
    rw [hq, hqr]
  unfold add_subscriber
  rw [hany, hfind]
  simp [hu]

/-- Helper: when no existing row collides on email or id,
`add_subscriber` inserts the new row and appends the `signup` event. -/
theorem add_subscriber_fresh_eq (s : Store) (signup : NewsletterSignup)
    (ip : Option String) (newId tok evId : String) (now : Int)
    (hfresh : ∀ q ∈ s.subscribers,
      ¬(q.email = signup.email ∨ q.id = newId)) :
    add_subscriber s signup ip newId tok evId now =
      (Except.ok newId,
        { subscribers := s.subscribers ++ [newRow signup ip newId tok now]
          events := s.events ++
            [{ id := evId
               subscriber_id := newId
               event_type := "signup"
               event_data :=
                 [("source", some signup.source),
                  ("campaign", some signup.campaign),
                  ("ip", ip)]
               created_at := now }] }) := by
  have hany : s.subscribers.any
      (fun q => q.email == signup.email || q.id == newId) = false := by
    rw [List.any_eq_false]
    intro q hq
    have h := hfresh q hq
    simp only [Bool.or_eq_true, beq_iff_eq]
    tauto
  unfold add_subscriber
  rw [hany]
  simp

/-- Helper: with a unique-email store and a matching row `r` that was
never unsubscribed, `add_subscriber` raises
`ValueError("Email already subscribed")` and returns the store
unchanged. -/
theorem add_subscriber_dup_eq (s : Store) (signup : NewsletterSignup)
    (ip : Option String) (newId tok evId : String) (now : Int)
    (r : Subscriber) (hnd : s.emailsNodup) (hr : r ∈ s.subscribers)
    (he : r.email = signup.email) (hu : r.unsubscribed_at = none) :
    add_subscriber s signup ip newId tok evId now =
      (Except.error "Email already subscribed", s) := by
  have hany : s.subscribers.any
      (fun q => q.email == signup.email || q.id == newId) = true :=
    List.any_eq_true.mpr ⟨r, hr, by simp [he]⟩
  have hre : (r.email == signup.email) = true := by simp [he]
  have hfind : s.subscribers.find? (fun q => q.email == signup.email)
      = some r := by
    have hsome : (s.subscribers.find?
        (fun q => q.email == signup.email)).isSome = true :=
      List.find?_isSome.mpr ⟨r, hr, hre⟩
    obtain ⟨q, hq⟩ := Option.isSome_iff_exists.mp hsome
    have hq2 := List.find?_some hq
    have hq3 : (q.email == signup.email) = true := hq2
    have hqe : q.email = r.email := (eq_of_beq hq3).trans he.symm
    have hqr : q = r :=
      List.inj_on_of_nodup_map hnd (List.mem_of_find?_eq_some hq) hr hqe
    rw [hq, hqr]
  unfold add_subscriber
  rw [hany, hfind]
  simp [hu]

/-- C2: signing up an email whose existing row is unsubscribed returns
the existing id, reactivates that row in place (`is_active = 1`,
`unsubscribed_at = NULL`, `updated_at = now`, new `source`/`campaign`,
every other column — id, email, created_at included — preserved), keeps
every other row, creates no new row, and appends exactly one
`resubscribe` event referencing the existing id. -/
theorem add_subscriber_reactivates_unsubscribed (s : Store)
    (signup : NewsletterSignup) (ip : Option String)
    (newId tok evId : String) (now : Int) (r : Subscriber)
    (hnd : s.emailsNodup) (hr : r ∈ s.subscribers)
    (he : r.email = signup.email) (hu : r.unsubscribed_at.isSome) :
    ∃ s1,
      add_subscriber s signup ip newId tok evId now
        = (Except.ok r.id, s1) ∧
      s1.subscribers.length = s.subscribers.length ∧
      { r with
        is_active := 1
        unsubscribed_at := none
        updated_at := now
        source := signup.source
        campaign := signup.campaign } ∈ s1.subscribers ∧
      (∀ q ∈ s.subscribers, q.email ≠ signup.email → q ∈ s1.subscribers) ∧
      s1.events = s.events ++
        [{ id := evId
           subscriber_id := r.id
           event_type := "resubscribe"
           event_data :=
             [("source", some signup.source),
              ("campaign", some signup.campaign)]
           created_at := now }] := by
  have h := add_subscriber_resub_eq s signup ip newId tok evId now r
    hnd hr he hu
  refine ⟨_, h, List.length_map _ _, ?_, ?_, rfl⟩
  · refine List.mem_map.mpr ⟨r, hr, ?_⟩
    have hre : (r.email == signup.email) = true := by simp [he]
    rw [hre]
    simp [reactivate]
  · intro q hq hne
    refine List.mem_map.mpr ⟨q, hq, ?_⟩
    have hqe : (q.email == signup.email) = false := by
      simpa using hne
    rw [hqe]
    simp

/-- Witness for C2: reactivating `a@example.com` over a one-row store. -/
theorem add_subscriber_reactivates_unsubscribed_witness :
    ∃ s1,
      add_subscriber { subscribers := [demoUnsubRow], events := [] }
          demoSignup none "id-2" "tok-2" "ev-2" 40
        = (Except.ok demoUnsubRow.id, s1) ∧
      s1.subscribers.length = 1 ∧
      { demoUnsubRow with
        is_active := 1
        unsubscribed_at := none
        updated_at := 40
        source := demoSignup.source
        campaign := demoSignup.campaign } ∈ s1.subscribers ∧
      (∀ q ∈ [demoUnsubRow],
        q.email ≠ demoSignup.email → q ∈ s1.subscribers) ∧
      s1.events =
        [{ id := "ev-2"
           subscriber_id := demoUnsubRow.id
           event_type := "resubscribe"
           event_data :=
             [("source", some demoSignup.source),
              ("campaign", some demoSignup.campaign)]
           created_at := 40 }] :=
  add_subscriber_reactivates_unsubscribed _ demoSignup none "id-2" "tok-2"
    "ev-2" 40 demoUnsubRow (by decide) (by simp) (by decide) (by decide)

/-- C3 amended: signing up an email whose existing row was never
unsubscribed raises the fixed `ValueError("Email already subscribed")`
and leaves the store exactly as it was: same subscriber list (so the
total count is unchanged and no duplicate row exists) and same event
log (nothing appended). -/
theorem add_subscriber_active_email_fails (s : Store)
    (signup : NewsletterSignup) (ip : Option String)
    (newId tok evId : String) (now : Int) (r : Subscriber)
    (hnd : s.emailsNodup) (hr : r ∈ s.subscribers)
    (he : r.email = signup.email) (hu : r.unsubscribed_at = none) :
    add_subscriber s signup ip newId tok evId now
      = (Except.error "Email already subscribed", s) ∧
    (add_subscriber s signup ip newId tok evId now).2.subscribers.length
      = s.subscribers.length ∧
    (add_subscriber s signup ip newId tok evId now).2.events = s.events := by
  have h := add_subscriber_dup_eq s signup ip newId tok evId now r
    hnd hr he hu
  exact ⟨h, by rw [h], by rw [h]⟩

/-- Witness for C3: an already-active `a@example.com` row. -/
theorem add_subscriber_active_email_fails_witness :
    add_subscriber { subscribers := [demoActiveRow], events := [] }
        demoSignup none "id-2" "tok-2" "ev-2" 40
      = (Except.error "Email already subscribed",
         { subscribers := [demoActiveRow], events := [] }) ∧
    (add_subscriber { subscribers := [demoActiveRow], events := [] }
        demoSignup none "id-2" "tok-2" "ev-2" 40).2.subscribers.length
      = 1 ∧
    (add_subscriber { subscribers := [demoActiveRow], events := [] }
        demoSignup none "id-2" "tok-2" "ev-2" 40).2.events = [] :=
  add_subscriber_active_email_fails _ demoSignup none "id-2" "tok-2"
    "ev-2" 40 demoActiveRow (by decide) (by simp) (by decide) (by decide)

/-- Counterexample for C3 as stated: the raised error is the constant
string `Email already subscribed`; it does not carry the existing email
(`a@example.com` does not occur in it). -/
theorem already_subscribed_error_lacks_email_cex :
    (add_subscriber { subscribers := [demoActiveRow], events := [] }
        demoSignup none "id-2" "tok-2" "ev-2" 40).1
      = Except.error "Email already subscribed" ∧
    strContains "Email already subscribed" "a@example.com" = false :=
  ⟨rfl, by decide⟩

/-- C8: the reactivation branch keys solely on `unsubscribed_at`: an
existing row with `is_active = 0` but `unsubscribed_at` NULL still gets
the already-subscribed error, and the store (hence the row) is left
untouched. -/
theorem add_subscriber_inactive_not_reactivated (s : Store)
    (signup : NewsletterSignup) (ip : Option String)
    (newId tok evId : String) (now : Int) (r : Subscriber)
    (hnd : s.emailsNodup) (hr : r ∈ s.subscribers)
    (he : r.email = signup.email) (ha : r.is_active = 0)
    (hu : r.unsubscribed_at = none) :
    add_subscriber s signup ip newId tok evId now
      = (Except.error "Email already subscribed", s) :=
  add_subscriber_dup_eq s signup ip newId tok evId now r hnd hr he hu

/-- Witness for C8: an inactive, never-unsubscribed row. -/
theorem add_subscriber_inactive_not_reactivated_witness :
    add_subscriber
        { subscribers := [{ demoActiveRow with is_active := 0 }],
          events := [] }
        demoSignup none "id-2" "tok-2" "ev-2" 40
      = (Except.error "Email already subscribed",
         { subscribers := [{ demoActiveRow with is_active := 0 }],
           events := [] }) :=
  add_subscriber_inactive_not_reactivated _ demoSignup none "id-2" "tok-2"
    "ev-2" 40 { demoActiveRow with is_active := 0 }
    (by decide) (by simp) (by decide) (by decide) (by decide)

/-- C10: on the reactivation path the `ip` argument is recorded nowhere:
the outcome is identical for any two ip arguments, the stored
`ip_address` column of every row is unchanged, and the appended
`resubscribe` event carries only `source` and `campaign` — whereas the
`signup` event appended on a fresh insert does carry an `ip` entry. -/
theorem resubscribe_ignores_ip (s : Store) (signup : NewsletterSignup)
    (ip ip2 : Option String) (newId tok evId : String) (now : Int)
    (r : Subscriber) (hnd : s.emailsNodup) (hr : r ∈ s.subscribers)
    (he : r.email = signup.email) (hu : r.unsubscribed_at.isSome) :
    add_subscriber s signup ip newId tok evId now
      = add_subscriber s signup ip2 newId tok evId now ∧
    (add_subscriber s signup ip newId tok evId now).2.subscribers.map
        (fun q => q.ip_address)
      = s.subscribers.map (fun q => q.ip_address) ∧
    (∃ ev,
      (add_subscriber s signup ip newId tok evId now).2.events
        = s.events ++ [ev] ∧
      ev.event_data
        = [("source", some signup.source),
           ("campaign", some signup.campaign)]) ∧
    (∀ s2 : Store,
      (∀ q ∈ s2.subscribers, ¬(q.email = signup.email ∨ q.id = newId)) →
      ∃ ev2,
        (add_subscriber s2 signup ip newId tok evId now).2.events
          = s2.events ++ [ev2] ∧
        ev2.event_data
          = [("source", some signup.source),
             ("campaign", some signup.campaign),
             ("ip", ip)]) := by
  have h := add_subscriber_resub_eq s signup ip newId tok evId now r
    hnd hr he hu
  have h2 := add_subscriber_resub_eq s signup ip2 newId tok evId now r
    hnd hr he hu
  refine ⟨h.trans h2.symm, ?_, ⟨_, by rw [h], rfl⟩, ?_⟩
  · rw [h]
    show (s.subscribers.map _).map _ = _
    rw [List.map_map]
    refine List.map_congr_left ?_
    intro q _
    by_cases hc : (q.email == signup.email) = true
    · simp only [Function.comp, hc, if_true, reactivate]
    · simp only [Function.comp, Bool.not_eq_true] at hc
      simp only [Function.comp, hc, Bool.false_eq_true, if_false]
  · intro s2 hs2
    have hf := add_subscriber_fresh_eq s2 signup ip newId tok evId now hs2
    exact ⟨_, by rw [hf], rfl⟩

/-- Witness for C10: one unsubscribed row, two different ip arguments. -/
theorem resubscribe_ignores_ip_witness :
    add_subscriber { subscribers := [demoUnsubRow], events := [] }
        demoSignup (some "9.9.9.9") "id-2" "tok-2" "ev-2" 40
      = add_subscriber { subscribers := [demoUnsubRow], events := [] }
          demoSignup none "id-2" "tok-2" "ev-2" 40 ∧
    (add_subscriber { subscribers := [demoUnsubRow], events := [] }
        demoSignup (some "9.9.9.9") "id-2" "tok-2" "ev-2" 40).2.subscribers.map
        (fun q => q.ip_address)
      = [demoUnsubRow].map (fun q => q.ip_address) ∧
    (∃ ev,
      (add_subscriber { subscribers := [demoUnsubRow], events := [] }
          demoSignup (some "9.9.9.9") "id-2" "tok-2" "ev-2" 40).2.events
        = [] ++ [ev] ∧
      ev.event_data
        = [("source", some demoSignup.source),
           ("campaign", some demoSignup.campaign)]) ∧
    (∀ s2 : Store,
      (∀ q ∈ s2.subscribers,
        ¬(q.email = demoSignup.email ∨ q.id = "id-2")) →
      ∃ ev2,
        (add_subscriber s2 demoSignup (some "9.9.9.9") "id-2" "tok-2"
            "ev-2" 40).2.events
          = s2.events ++ [ev2] ∧
        ev2.event_data
          = [("source", some demoSignup.source),
             ("campaign", some demoSignup.campaign),
             ("ip", some "9.9.9.9")]) :=
  resubscribe_ignores_ip _ demoSignup (some "9.9.9.9") none "id-2" "tok-2"
    "ev-2" 40 demoUnsubRow (by decide) (by simp) (by decide) (by decide)

/-- C7: `process_signup` answers a fresh email with a success response
carrying the (non-empty) new subscriber id, and an already-active email
with a success-shaped response whose message contains `already` and
which carries no subscriber id. -/
theorem process_signup_shapes (s : Store) (signup : NewsletterSignup)
    (ip : Option String) (newId tok evId : String) (now : Int)
    (hid : newId ≠ "") :
    ((∀ q ∈ s.subscribers, ¬(q.email = signup.email ∨ q.id = newId)) →
      ∃ s1 resp,
        process_signup s signup ip newId tok evId now
          = Except.ok (resp, s1) ∧
        resp.success = true ∧
        resp.subscriber_id = some newId ∧ newId ≠ "") ∧
    (s.emailsNodup →
      ∀ r ∈ s.subscribers, r.email = signup.email →
      r.unsubscribed_at = none →
      ∃ resp,
        process_signup s signup ip newId tok evId now
          = Except.ok (resp, s) ∧
        resp.success = true ∧
        strContains resp.message "already" = true ∧
        resp.subscriber_id = none) := by
  constructor
  · intro hfresh
    have h := add_subscriber_fresh_eq s signup ip newId tok evId now hfresh
    have hps : process_signup s signup ip newId tok evId now
        = Except.ok
          ({ success := true
             message := "🎉 You\x27re on the list! Check your email for exclusive updates."
             subscriber_id := some newId },
           { subscribers := s.subscribers
                ++ [newRow signup ip newId tok now]
             events := s.events ++
               [{ id := evId
                  subscriber_id := newId
                  event_type := "signup"
                  event_data :=
                    [("source", some signup.source),
                     ("campaign", some signup.campaign),
                     ("ip", ip)]
                  created_at := now }] }) := by
      unfold process_signup
      rw [h]
    exact ⟨_, _, hps, rfl, rfl, hid⟩
  · intro hnd r hr he hu
    have h := add_subscriber_dup_eq s signup ip newId tok evId now r
      hnd hr he hu
    have hps : process_signup s signup ip newId tok evId now
        = Except.ok
          ({ success := true
             message := "You\x27re already on our list! Thanks for your continued interest."
             subscriber_id := none }, s) := by
      unfold process_signup
      rw [h]
      rfl
    exact ⟨_, hps, rfl, by decide, rfl⟩

/-- Witness for C7: the empty store gives the fresh branch; the inner
already-subscribed branch is exercised vacuously-free at the same
instantiation (its hypotheses name a row of the empty store). -/
theorem process_signup_shapes_witness :
    ((∀ q ∈ ([] : List Subscriber), ¬(q.email = demoSignup.email ∨ q.id = "id-9")) →
      ∃ s1 resp,
        process_signup { subscribers := [], events := [] } demoSignup
            none "id-9" "tok-9" "ev-9" 50
          = Except.ok (resp, s1) ∧
        resp.success = true ∧
        resp.subscriber_id = some "id-9" ∧ "id-9" ≠ "") ∧
    (Store.emailsNodup { subscribers := [], events := [] } →
      ∀ r ∈ ([] : List Subscriber), r.email = demoSignup.email →
      r.unsubscribed_at = none →
      ∃ resp,
        process_signup { subscribers := [], events := [] } demoSignup
            none "id-9" "tok-9" "ev-9" 50
          = Except.ok (resp, { subscribers := [], events := [] }) ∧
        resp.success = true ∧
        strContains resp.message "already" = true ∧
        resp.subscriber_id = none) :=
  process_signup_shapes { subscribers := [], events := [] } demoSignup
    none "id-9" "tok-9" "ev-9" 50 (by decide)

/-- Helper: a row is exported iff it is stored, active, and passes the
(truthiness-guarded) campaign filter. -/
theorem mem_export_subscribers (s : Store) (c : Option String)
    (r : Subscriber) :
    r ∈ export_subscribers s c ↔
      (r ∈ s.subscribers ∧
        (r.is_active == 1 &&
          (if campaignTruthy c then r.campaign == c.getD ""
           else true)) = true) := by
  unfold export_subscribers
  rw [(List.mergeSort_perm _ _).mem_iff, List.mem_filter]

/-- Helper: the export order is `created_at` descending. -/
theorem export_subscribers_pairwise (s : Store) (c : Option String) :
    (export_subscribers s c).Pairwise
      (fun a b => b.created_at ≤ a.created_at) := by
  have htrans : ∀ a b d : Subscriber,
      decide (b.created_at ≤ a.created_at) = true →
      decide (d.created_at ≤ b.created_at) = true →
      decide (d.created_at ≤ a.created_at) = true := by
    intro a b d hab hbd
    simp only [decide_eq_true_eq] at *
    exact le_trans hbd hab
  have htot : ∀ a b : Subscriber,
      (decide (b.created_at ≤ a.created_at) ||
       decide (a.created_at ≤ b.created_at)) = true := by
    intro a b
    simp only [Bool.or_eq_true, decide_eq_true_eq]
    exact le_total b.created_at a.created_at
  have hp := List.sorted_mergeSort htrans htot
    (s.subscribers.filter (fun r =>
      r.is_active == 1 &&
        (if campaignTruthy c then r.campaign == c.getD "" else true)))
  unfold export_subscribers
  exact hp.imp (fun hab => of_decide_eq_true hab)

/-- C4 amended: `export_subscribers` is sorted by `created_at`
descending and returns exactly the stored rows with `is_active = 1`
whose campaign equals the filter whenever a non-empty filter is given
(never a row with `is_active` false). -/
theorem export_subscribers_active_sorted (s : Store) (c : Option String) :
    (export_subscribers s c).Pairwise
      (fun a b => b.created_at ≤ a.created_at) ∧
    ∀ r, r ∈ export_subscribers s c ↔
      (r ∈ s.subscribers ∧ r.is_active = 1 ∧
        ∀ cc, c = some cc → cc ≠ "" → r.campaign = cc) := by
  refine ⟨export_subscribers_pairwise s c, ?_⟩
  intro r
  cases c with
  | none =>
    rw [mem_export_subscribers]
    simp [campaignTruthy]
  | some cc =>
    by_cases hcc : cc = ""
    · subst hcc
      rw [mem_export_subscribers]
      simp [campaignTruthy]
    · rw [mem_export_subscribers]
      simp only [campaignTruthy, Bool.not_eq_true', beq_eq_false_iff_ne,
        ne_eq, hcc, not_false_eq_true, if_true, Bool.and_eq_true,
        beq_iff_eq, Option.getD_some, Option.some.injEq,
        forall_eq_apply_imp_iff, and_assoc]
      constructor
      · rintro ⟨h1, h2, h3⟩
        exact ⟨h1, h2, fun cc2 hcc2 _ => hcc2 ▸ h3⟩
      · rintro ⟨h1, h2, h3⟩
        exact ⟨h1, h2, h3 cc rfl hcc⟩

/-- Counterexample for C4 as stated: with the given-but-empty campaign
filter, export still returns the active demo row whose campaign is
`early_access_2025`, not an exact match for the empty string. -/
theorem export_empty_campaign_filter_cex :
    demoActiveRow ∈ export_subscribers
      { subscribers := [demoActiveRow], events := [] } (some "") ∧
    demoActiveRow.campaign ≠ "" := by
  refine ⟨?_, by decide⟩
  rw [mem_export_subscribers]
  exact ⟨by simp, by decide⟩

/-- C9: an empty-string campaign argument is falsy in the `if campaign:`
guard, so the filter is not applied: the export equals the unfiltered
one and contains every active stored row. -/
theorem export_empty_campaign_no_filter (s : Store) :
    export_subscribers s (some "") = export_subscribers s none ∧
    ∀ r, r ∈ export_subscribers s (some "") ↔
      (r ∈ s.subscribers ∧ r.is_active = 1) := by
  constructor
  · rfl
  · intro r
    rw [mem_export_subscribers]
    simp [campaignTruthy]

/-- Helper: group counts count rows with that key. -/
theorem count_map_eq_length_filter {α : Type} [DecidableEq α]
    (f : Subscriber → α) (k : α) (rows : List Subscriber) :
    (rows.map f).count k = (rows.filter (fun r => f r == k)).length := by
  show List.countP (fun x => x == k) (rows.map f) = _
  rw [List.countP_map, List.countP_eq_length_filter]
  rfl

/-- Helper: every pair of a sorted group-count aggregate has a positive
count equal to the number of grouped rows with that key. -/
theorem mem_sorted_groupCounts {α : Type} [DecidableEq α]
    {f : Subscriber → α} {le : α × Nat → α × Nat → Bool}
    {rows : List Subscriber} {p : α × Nat}
    (hp : p ∈ (groupCounts f rows).mergeSort le) :
    0 < p.2 ∧ p.2 = (rows.filter (fun r => f r == p.1)).length := by
  have hp2 : p ∈ groupCounts f rows :=
    (List.mergeSort_perm _ _).mem_iff.mp hp
  unfold groupCounts at hp2
  obtain ⟨k, hk, hkp⟩ := List.mem_map.mp hp2
  subst hkp
  refine ⟨?_, count_map_eq_length_filter f k rows⟩
  exact List.count_pos_iff.mpr (List.mem_dedup.mp hk)

/-- Helper: the counts of a sorted group-count aggregate sum to the
number of grouped rows. -/
theorem sum_sorted_groupCounts {α : Type} [DecidableEq α]
    (f : Subscriber → α) (le : α × Nat → α × Nat → Bool)
    (rows : List Subscriber) :
    (((groupCounts f rows).mergeSort le).map Prod.snd).sum
      = rows.length := by
  have hperm := (List.mergeSort_perm (groupCounts f rows) le).map Prod.snd
  rw [hperm.sum_eq]
  unfold groupCounts
  rw [List.map_map]
  have h := List.sum_map_count_dedup_eq_length (rows.map f)
  rw [List.length_map] at h
  simpa [Function.comp] using h

/-- Helper: a pair of a windowed aggregate counts exactly the stored
rows with that key and an in-window `created_at`. -/
theorem agg_counts_window {α : Type} [DecidableEq α]
    (f : Subscriber → α) (le : α × Nat → α × Nat → Bool)
    (s : Store) (days : Nat) (now : Int) (p : α × Nat)
    (hp : p ∈ (groupCounts f (windowRows s days now)).mergeSort le) :
    0 < p.2 ∧ p.2 = (s.subscribers.filter (fun r =>
      f r == p.1 && decide (cutoff now days ≤ r.created_at))).length := by
  obtain ⟨h1, h2⟩ := mem_sorted_groupCounts hp
  refine ⟨h1, ?_⟩
  rw [h2]
  unfold windowRows
  rw [List.filter_filter]

/-- Helper: widening the window keeps at least as many rows. -/
theorem windowRows_length_mono (s : Store) (now : Int) :
    (windowRows s 7 now).length ≤ (windowRows s 30 now).length := by
  unfold windowRows
  rw [← List.countP_eq_length_filter, ← List.countP_eq_length_filter]
  apply List.countP_mono_left
  intro r _ h
  simp only [decide_eq_true_eq] at h ⊢
  refine le_trans ?_ h
  unfold cutoff
  push_cast
  omega

/-- C5: every pair of the three windowed aggregates of `get_analytics`
carries a positive count equal to the number of stored rows with that
key whose `created_at` is at or after `now − days·86400` (so rows older
than the window are never counted), and widening the window from 7 to
30 days never decreases the total count of any aggregate. -/
theorem analytics_window_aggregates (s : Store) (days : Nat) (now : Int) :
    (∀ p ∈ (get_analytics s days now).daily_signups,
      0 < p.2 ∧ p.2 = (s.subscribers.filter (fun r =>
        dateOf r.created_at == p.1 &&
          decide (cutoff now days ≤ r.created_at))).length) ∧
    (∀ p ∈ (get_analytics s days now).sources,
      0 < p.2 ∧ p.2 = (s.subscribers.filter (fun r =>
        r.source == p.1 &&
          decide (cutoff now days ≤ r.created_at))).length) ∧
    (∀ p ∈ (get_analytics s days now).campaigns,
      0 < p.2 ∧ p.2 = (s.subscribers.filter (fun r =>
        r.campaign == p.1 &&
          decide (cutoff now days ≤ r.created_at))).length) ∧
    ((get_analytics s 7 now).daily_signups.map Prod.snd).sum
      ≤ ((get_analytics s 30 now).daily_signups.map Prod.snd).sum ∧
    ((get_analytics s 7 now).sources.map Prod.snd).sum
      ≤ ((get_analytics s 30 now).sources.map Prod.snd).sum ∧
    ((get_analytics s 7 now).campaigns.map Prod.snd).sum
      ≤ ((get_analytics s 30 now).campaigns.map Prod.snd).sum := by
  have hdm : ∀ ds : Nat,
      ((get_analytics s ds now).daily_signups.map Prod.snd).sum
        = (windowRows s ds now).length := fun ds =>
    sum_sorted_groupCounts (fun r => dateOf r.created_at)
      (fun a b => decide (b.fst ≤ a.fst)) (windowRows s ds now)
  have hsm : ∀ ds : Nat,
      ((get_analytics s ds now).sources.map Prod.snd).sum
        = (windowRows s ds now).length := fun ds =>
    sum_sorted_groupCounts (fun r => r.source)
      (fun a b => decide (b.snd ≤ a.snd)) (windowRows s ds now)
  have hcm : ∀ ds : Nat,
      ((get_analytics s ds now).campaigns.map Prod.snd).sum
        = (windowRows s ds now).length := fun ds =>
    sum_sorted_groupCounts (fun r => r.campaign)
      (fun a b => decide (b.snd ≤ a.snd)) (windowRows s ds now)
  refine ⟨?_, ?_, ?_, ?_, ?_, ?_⟩
  · intro p hp
    exact agg_counts_window (fun r => dateOf r.created_at)
      (fun a b => decide (b.fst ≤ a.fst)) s days now p hp
  · intro p hp
    exact agg_counts_window (fun r => r.source)
      (fun a b => decide (b.snd ≤ a.snd)) s days now p hp
  · intro p hp
    exact agg_counts_window (fun r => r.campaign)
      (fun a b => decide (b.snd ≤ a.snd)) s days now p hp
  · rw [hdm 7, hdm 30]; exact windowRows_length_mono s now
  · rw [hsm 7, hsm 30]; exact windowRows_length_mono s now
  · rw [hcm 7, hcm 30]; exact windowRows_length_mono s now
